import Mathlib

/-!
Shallow embedding of the TelegramChannelMessageScraper ingestion pipeline
(src/telegram_channel_message_scraper.py): checkpoint store, privilege
classifier, message classifier, the fetch_messages walk with FloodWait
retry, and the CSV sink writer.
-/

/-- A telethon document attached to a MessageMediaDocument (only the
mime_type attribute is inspected by the scraper). -/
structure TelegramDocument where
  mime_type : String
deriving Repr, DecidableEq

/-- The media descriptor of a message: the telethon media classes the
scraper distinguishes (MessageMediaPhoto, MessageMediaDocument with its
optional document, MessageMediaWebPage, MessageMediaGeo,
MessageMediaContact, MessageMediaPoll), plus any other non-null media. -/
inductive MessageMedia
  | photo
  | document (doc : Option TelegramDocument)
  | webPage
  | geo
  | contact
  | poll
  | unknownMedia
deriving Repr, DecidableEq

/-- Forward header of a forwarded message: the optional origin date
(ISO string) and the optional resolved origin user id. -/
structure ForwardHeader where
  date : Option String
  from_user_id : Option Nat
deriving Repr, DecidableEq

/-- A raw message from the remote stream, with exactly the telethon
Message attributes the scraper reads. The body text is modelled as a
String; a Python None body and an empty body are both falsy in the code
and both map to "". -/
structure Msg where
  id : Nat
  date : Option String
  sender_id : Option Nat
  sender_first_name : Option String
  sender_username : Option String
  message : String
  media : Option MessageMedia
  views : Option Nat
  forwards : Option Nat
  reactions : Option Nat
  forward : Option ForwardHeader
  reply_to_msg_id : Option Nat
  edit_date : Option String
deriving Repr, DecidableEq

/-- The normalized Record produced by _extract_message_data, with the
fixed key set of the output schema. -/
structure Record where
  message_id : Nat
  date : Option String
  sender_id : Option Nat
  sender_name : String
  sender_username : String
  message_text : String
  media_type : Option String
  views : Nat
  forwards : Nat
  reactions : Nat
  forwarded : Bool
  forward_date : Option String
  forward_from_id : Option Nat
  reply_to_msg_id : Option Nat
  edit_date : Option String
deriving Repr, DecidableEq

/-- Python str.startswith on explicit character lists. -/
def listStarts : List Char → List Char → Bool
  | [], _ => true
  | _ :: _, [] => false
  | a :: as, b :: bs => a = b && listStarts as bs

/-- Python mime_type.startswith(pat): pat is an initial segment of the
string. -/
def strStartsWith (s pat : String) : Bool :=
  listStarts pat.toList s.toList

/-- _get_media_type: the fixed priority table over the media classes.
The Python dict iterates photo, document, webpage, geo, contact, poll in
insertion order; the classes are mutually exclusive, so the loop is a
case split. A MessageMediaDocument with a truthy document inspects the
mime type; any other non-null media falls through to "other". -/
def _get_media_type (media : Option MessageMedia) : Option String :=
  match media with
  | none => none
  | some MessageMedia.photo => some "photo"
  | some (MessageMedia.document (some doc)) =>
      if strStartsWith doc.mime_type "video/" then some "video"
      else if strStartsWith doc.mime_type "audio/" then some "audio"
      else some "document"
  | some (MessageMedia.document none) => some "document"
  | some MessageMedia.webPage => some "webpage"
  | some MessageMedia.geo => some "location"
  | some MessageMedia.contact => some "contact"
  | some MessageMedia.poll => some "poll"
  | some MessageMedia.unknownMedia => some "other"

/-- _extract_message_data: build the flat Record from a raw message.
getattr defaults and `or` fallbacks become Option.getD. -/
def _extract_message_data (m : Msg) : Record :=
  { message_id := m.id
    date := m.date
    sender_id := m.sender_id
    sender_name := m.sender_first_name.getD ""
    sender_username := m.sender_username.getD ""
    message_text := m.message
    media_type := _get_media_type m.media
    views := m.views.getD 0
    forwards := m.forwards.getD 0
    reactions := m.reactions.getD 0
    forwarded := m.forward.isSome
    forward_date := match m.forward with | some f => f.date | none => none
    forward_from_id := match m.forward with | some f => f.from_user_id | none => none
    reply_to_msg_id := m.reply_to_msg_id
    edit_date := m.edit_date }

/-- State of the persisted progress.json store: absent, present but not
parseable as a JSON object, or a JSON object with an optional
last_message_id field. -/
inductive ProgressStore
  | missing
  | corrupt
  | valid (last_message_id : Option Nat)
deriving Repr, DecidableEq

/-- _load_progress: read the checkpoint. When the file is missing return
0; when it parses, return its last_message_id field (0 if absent); when
json.load raises on a corrupt file, the exception propagates (Except.error). -/
def _load_progress : ProgressStore → Except String Nat
  | ProgressStore.missing => Except.ok 0
  | ProgressStore.corrupt => Except.error "json.load raised"
  | ProgressStore.valid n => Except.ok (n.getD 0)

/-- _save_progress: append one written checkpoint value to the trace of
values passed to the store. -/
def _save_progress (trace : List Nat) (message_id : Nat) : List Nat :=
  trace ++ [message_id]

/-- The membership role returned by GetParticipantRequest. -/
inductive ChannelParticipant
  | creator
  | admin
  | member
  | banned
  | leftChannel
deriving Repr, DecidableEq

/-- isinstance(participant, (ChannelParticipantAdmin, ChannelParticipantCreator)). -/
def isAdminParticipant : ChannelParticipant → Bool
  | ChannelParticipant.creator => true
  | ChannelParticipant.admin => true
  | _ => false

/-- Result of is_admin: the boolean answer plus any warning lines printed. -/
structure AdminCheck where
  result : Bool
  warnings : List String
deriving Repr, DecidableEq

/-- is_admin: query the remote participant role; on any exception print a
warning and return false. The remote outcome is passed in as an Except. -/
def is_admin (user_id : Nat) (queryResult : Except String ChannelParticipant) : AdminCheck :=
  match queryResult with
  | Except.ok p => { result := isAdminParticipant p, warnings := [] }
  | Except.error e =>
      { result := false
        warnings := ["Warning: Could not check admin status for user " ++
          toString user_id ++ ": " ++ e] }

/-- The YAML config file contents (config = {} when the file is absent is
modelled by the caller passing none). Only keys the code reads. -/
structure YamlConfig where
  api_id : Option String
  api_hash : Option String
  phone_number : Option String
  session_name : Option String
  output_file : Option String
  timezone : Option String
  batch_size : Option Nat
  rate_limit_delay : Option Nat
deriving Repr, DecidableEq

/-- The environment variables the loader consults. -/
structure EnvVars where
  telegram_api_id : Option String
  telegram_api_hash : Option String
  telegram_phone : Option String
deriving Repr, DecidableEq

/-- The resolved configuration dict returned by _load_config. The int()
conversion of api_id is not modelled (no claim concerns it); the
credential strings are kept as merged. -/
structure Config where
  api_id : String
  api_hash : String
  phone_number : String
  session_name : String
  output_file : String
  timezone : String
  batch_size : Nat
  rate_limit_delay : Nat
deriving Repr, DecidableEq

/-- Python `a or b` on optional strings: None and "" are falsy. -/
def pyOr (a b : Option String) : Option String :=
  match a with
  | some s => if s = "" then b else some s
  | none => b

/-- The empty YAML config used when config.yaml does not exist. -/
def emptyYamlConfig : YamlConfig :=
  { api_id := none, api_hash := none, phone_number := none,
    session_name := none, output_file := none, timezone := none,
    batch_size := none, rate_limit_delay := none }

/-- Python truthiness of the merged credential: None or "" is falsy. -/
def credTruthy : Option String → Bool
  | some s => s ≠ ""
  | none => false

/-- _load_config: merge environment variables over the YAML file (env
wins when truthy), raise ValueError when any credential is missing, and
fill the remaining keys with their defaults (batch_size 100,
rate_limit_delay 1, session_name "telegram_session", output_file
"messages.csv", timezone "UTC"). -/
def _load_config (env : EnvVars) (configFile : Option YamlConfig) : Except String Config :=
  let cfg := configFile.getD emptyYamlConfig
  let api_id := pyOr env.telegram_api_id cfg.api_id
  let api_hash := pyOr env.telegram_api_hash cfg.api_hash
  let phone := pyOr env.telegram_phone cfg.phone_number
  if credTruthy api_id && credTruthy api_hash && credTruthy phone then
    Except.ok
      { api_id := api_id.getD ""
        api_hash := api_hash.getD ""
        phone_number := phone.getD ""
        session_name := cfg.session_name.getD "telegram_session"
        output_file := cfg.output_file.getD "messages.csv"
        timezone := cfg.timezone.getD "UTC"
        batch_size := cfg.batch_size.getD 100
        rate_limit_delay := cfg.rate_limit_delay.getD 1 }
  else Except.error "Missing required credentials"

/-- The walk skips a message when exclude_self_posts is set and the
message's sender equals the connected user's id. -/
def excludedMsg (exclude_self_posts : Bool) (current_user_id : Nat) (m : Msg) : Bool :=
  exclude_self_posts && m.sender_id == some current_user_id

/-- Python truthiness of `message.message or message.media`: a non-empty
body or a non-null media descriptor. -/
def msgHasContent (m : Msg) : Bool :=
  (m.message != "") || m.media.isSome

/-- In-flight state of one walk attempt: the messages_data accumulator
and the trace of checkpoint values passed to _save_progress. -/
structure WalkState where
  messages_data : List Record
  saves : List Nat
deriving Repr, DecidableEq

/-- One iteration of the fetch_messages walk loop: skip excluded
senders; for a message with content append its Record and, when the
accumulator length is a multiple of 100, save the message's id as the
checkpoint; otherwise fall through. -/
def walkStep (exclude_self_posts : Bool) (current_user_id : Nat)
    (st : WalkState) (m : Msg) : WalkState :=
  if excludedMsg exclude_self_posts current_user_id m then st
  else if msgHasContent m then
    let messages_data := st.messages_data ++ [_extract_message_data m]
    if messages_data.length % 100 == 0 then
      { messages_data := messages_data, saves := _save_progress st.saves m.id }
    else
      { messages_data := messages_data, saves := st.saves }
  else st

/-- iter_messages(channel, reverse=True, min_id=c): the channel's
messages in ascending id order restricted to those with id strictly
above the lower bound. -/
def streamFrom (msgs : List Msg) (min_id : Nat) : List Msg :=
  msgs.filter (fun m => min_id < m.id)

/-- Run the walk loop over a list of stream items from an empty
accumulator. -/
def walkList (exclude_self_posts : Bool) (current_user_id : Nat)
    (items : List Msg) : WalkState :=
  items.foldl (walkStep exclude_self_posts current_user_id)
    { messages_data := [], saves := [] }

/-- One full walk attempt of fetch_messages over the stream above the
checkpoint. -/
def walkMessages (exclude_self_posts : Bool) (current_user_id : Nat)
    (msgs : List Msg) (last_message_id : Nat) : WalkState :=
  walkList exclude_self_posts current_user_id (streamFrom msgs last_message_id)

/-- A FloodWaitError raised by the remote stream during the walk: the
number of stream items the interrupted attempt had consumed, and the
required wait in seconds. -/
structure FloodWaitEvent where
  afterItems : Nat
  seconds : Nat
deriving Repr, DecidableEq

/-- What a call of fetch_messages returns and does: the returned
messages_data, the full trace of checkpoint values passed to
_save_progress across all attempts, and the FloodWait sleeps performed. -/
structure FetchResult where
  messages_data : List Record
  saves : List Nat
  floodSleeps : List Nat
deriving Repr, DecidableEq

/-- fetch_messages: walk the stream above the loaded checkpoint. Each
FloodWaitEvent interrupts the walk after its afterItems stream items:
the interrupted attempt's accumulator is discarded (only its checkpoint
saves persist), the pipeline sleeps event.seconds, and fetch_messages
recurses with the same arguments (self.last_message_id is not reloaded,
so the restart uses the same lower bound). The returned messages_data
comes from the final, uninterrupted attempt. -/
def fetch_messages (exclude_self_posts : Bool) (current_user_id : Nat)
    (msgs : List Msg) (last_message_id : Nat) :
    List FloodWaitEvent → FetchResult
  | [] =>
      let st := walkMessages exclude_self_posts current_user_id msgs last_message_id
      { messages_data := st.messages_data, saves := st.saves, floodSleeps := [] }
  | e :: rest =>
      let st := walkList exclude_self_posts current_user_id
        ((streamFrom msgs last_message_id).take e.afterItems)
      let r := fetch_messages exclude_self_posts current_user_id msgs
        last_message_id rest
      { messages_data := r.messages_data
        saves := st.saves ++ r.saves
        floodSleeps := e.seconds :: r.floodSleeps }

/-- The double-quote character used by the csv writer. -/
def dq : String := String.singleton (Char.ofNat 34)

/-- The \r\n line terminator of Python's csv writer. -/
def crlf : String := String.mk [Char.ofNat 13, Char.ofNat 10]

/-- QUOTE_MINIMAL: a field needs quoting when it contains the delimiter,
the quote character, or a line break (character codes 44, 34, 10, 13). -/
def csvNeedsQuote (s : String) : Bool :=
  s.toList.any (fun c => c.toNat = 44 || c.toNat = 34 || c.toNat = 10 || c.toNat = 13)

/-- QUOTE_MINIMAL rendering of one field: quoted with doubled quote
characters when needed, verbatim otherwise. -/
def csvField (s : String) : String :=
  if csvNeedsQuote s then
    dq ++ String.join (s.toList.map
      (fun c => if c.toNat = 34 then dq ++ dq else String.singleton c)) ++ dq
  else s

/-- str() of an optional string field: None renders as the empty string. -/
def csvOptStr : Option String → String
  | some s => s
  | none => ""

/-- str() of an optional integer field: None renders as the empty string. -/
def csvOptNat : Option Nat → String
  | some n => toString n
  | none => ""

/-- str() of a Python bool. -/
def csvBool : Bool → String
  | true => "True"
  | false => "False"

/-- The fixed CSV column order of save_to_csv. -/
def fieldnames : List String :=
  ["message_id", "date", "sender_id", "sender_name", "sender_username",
   "message_text", "media_type", "views", "forwards", "reactions",
   "forwarded", "forward_date", "forward_from_id", "reply_to_msg_id",
   "edit_date"]

/-- The row the DictWriter emits for one Record, in column order. -/
def recordRow (r : Record) : List String :=
  [toString r.message_id, csvOptStr r.date, csvOptNat r.sender_id,
   r.sender_name, r.sender_username, r.message_text,
   csvOptStr r.media_type, toString r.views, toString r.forwards,
   toString r.reactions, csvBool r.forwarded, csvOptStr r.forward_date,
   csvOptNat r.forward_from_id, csvOptNat r.reply_to_msg_id,
   csvOptStr r.edit_date]

/-- One terminated CSV line from a list of fields. -/
def csvLine (fields : List String) : String :=
  String.intercalate "," (fields.map csvField) ++ crlf

/-- The full file content written for a non-empty record list: the
header row followed by one row per Record. -/
def csvContent (messages : List Record) : String :=
  csvLine fieldnames ++ String.join (messages.map (fun r => csvLine (recordRow r)))

/-- save_to_csv: with an empty record list print "No messages to save."
and return before touching the file; otherwise open the target with mode
"w" (truncating) and write the header and the rows. The file system is
the optional current content of the output target. -/
def save_to_csv (messages : List Record) (fileBefore : Option String) : Option String :=
  if messages.isEmpty then fileBefore
  else some (csvContent messages)

/-- A message is processed into a Record by the walk iff it is not
excluded by the self-post filter and has a non-empty body or media. -/
def eligibleMsg (exclude_self_posts : Bool) (current_user_id : Nat) (m : Msg) : Bool :=
  !(excludedMsg exclude_self_posts current_user_id m) && msgHasContent m

/-- Recursive specification of one walk attempt, parameterised by the
number of Records already in the accumulator: the Records and checkpoint
saves contributed by the remaining items. -/
def walkFrom (exclude_self_posts : Bool) (current_user_id : Nat) (k : Nat) :
    List Msg → List Record × List Nat
  | [] => ([], [])
  | m :: rest =>
      if excludedMsg exclude_self_posts current_user_id m then
        walkFrom exclude_self_posts current_user_id k rest
      else if msgHasContent m then
        let p := walkFrom exclude_self_posts current_user_id (k+1) rest
        (_extract_message_data m :: p.1,
         if (k+1) % 100 == 0 then m.id :: p.2 else p.2)
      else walkFrom exclude_self_posts current_user_id k rest

/-- The ids saved by the batched checkpoint policy: from a list of
appended Record ids, the id completing each run of 100 appends, counting
from k already-appended Records. -/
def savesSpec (k : Nat) : List Nat → List Nat
  | [] => []
  | i :: rest =>
      if (k+1) % 100 == 0 then i :: savesSpec (k+1) rest
      else savesSpec (k+1) rest

/-- The claim C1 qualification predicate on a produced Record: its
author was exempted by the self-post exclusion, or held elevated
privilege according to the given privilege assignment. -/
def recordAuthorQualified (is_privileged : Nat → Bool)
    (exclude_self_posts : Bool) (current_user_id : Nat) (r : Record) : Bool :=
  (exclude_self_posts && r.sender_id == some current_user_id) ||
  (match r.sender_id with
   | some a => is_privileged a
   | none => false)

/-- A plain eligible text message with id i+1 from author 5. -/
def plainMsg (i : Nat) : Msg :=
  { id := i + 1, date := none, sender_id := some 5, sender_first_name := none,
    sender_username := none, message := "x", media := none, views := none,
    forwards := none, reactions := none, forward := none,
    reply_to_msg_id := none, edit_date := none }

/-- A channel holding 100 eligible messages with ids 1..100. -/
def stream100 : List Msg := (List.range 100).map plainMsg

/-- A hello message from the non-privileged, non-excluded author 5. -/
def helloMsg : Msg := plainMsg 0

/-- A channel holding two eligible messages with ids 1 and 2. -/
def stream2 : List Msg := [plainMsg 0, plainMsg 1]

/-- A channel holding three eligible messages with ids 1, 2 and 3. -/
def stream3 : List Msg := [plainMsg 0, plainMsg 1, plainMsg 2]

/-- A config.yaml that sets batch_size to 2 and carries full credentials. -/
def yamlBatch2 : YamlConfig :=
  { api_id := some "123", api_hash := some "abc", phone_number := some "+1",
    session_name := none, output_file := none, timezone := none,
    batch_size := some 2, rate_limit_delay := none }

/-- An environment with no Telegram variables set. -/
def emptyEnv : EnvVars :=
  { telegram_api_id := none, telegram_api_hash := none, telegram_phone := none }

/-- The run used to refute strict monotonicity of the save trace: 100
eligible messages, one FloodWait raised after all 100 items of the first
attempt (demanding a 2 second wait). -/
def throttledRun : FetchResult :=
  fetch_messages true 999 stream100 0 [{ afterItems := 100, seconds := 2 }]

theorem foldl_walkStep_append (excl : Bool) (uid : Nat) (items : List Msg)
    (recs : List Record) (saves : List Nat) :
    items.foldl (walkStep excl uid) { messages_data := recs, saves := saves } =
      { messages_data := recs ++ (walkFrom excl uid recs.length items).1,
        saves := saves ++ (walkFrom excl uid recs.length items).2 } := by
  induction items generalizing recs saves with
  | nil => simp [walkFrom]
  | cons m rest ih =>
    by_cases h1 : excludedMsg excl uid m
    · simp [List.foldl_cons, walkStep, h1, walkFrom, ih recs saves]
    · by_cases h2 : msgHasContent m
      · by_cases h3 : (recs.length + 1) % 100 = 0
        · simp [List.foldl_cons, walkStep, h1, h2, walkFrom, h3, _save_progress,
            ih (recs ++ [_extract_message_data m]) (saves ++ [m.id])]
        · simp [List.foldl_cons, walkStep, h1, h2, walkFrom, h3, _save_progress,
            ih (recs ++ [_extract_message_data m]) saves]
      · simp [List.foldl_cons, walkStep, h1, h2, walkFrom, ih recs saves]

theorem walkFrom_fst (excl : Bool) (uid : Nat) (k : Nat) (items : List Msg) :
    (walkFrom excl uid k items).1 =
      (items.filter (eligibleMsg excl uid)).map _extract_message_data := by
  induction items generalizing k with
  | nil => simp [walkFrom]
  | cons m rest ih =>
    by_cases h1 : excludedMsg excl uid m
    · simp [walkFrom, h1, eligibleMsg, ih k]
    · by_cases h2 : msgHasContent m
      · simp [walkFrom, h1, h2, eligibleMsg, ih (k+1)]
      · simp [walkFrom, h1, h2, eligibleMsg, ih k]

theorem walkFrom_snd (excl : Bool) (uid : Nat) (k : Nat) (items : List Msg) :
    (walkFrom excl uid k items).2 =
      savesSpec k ((items.filter (eligibleMsg excl uid)).map Msg.id) := by
  induction items generalizing k with
  | nil => simp [walkFrom, savesSpec]
  | cons m rest ih =>
    by_cases h1 : excludedMsg excl uid m
    · simp [walkFrom, h1, eligibleMsg, ih k]
    · by_cases h2 : msgHasContent m
      · by_cases h3 : (k + 1) % 100 = 0
        · simp [walkFrom, h1, h2, h3, eligibleMsg, savesSpec, ih (k+1)]
        · simp [walkFrom, h1, h2, h3, eligibleMsg, savesSpec, ih (k+1)]
      · simp [walkFrom, h1, h2, eligibleMsg, ih k]

theorem walkMessages_messages_data (excl : Bool) (uid : Nat)
    (msgs : List Msg) (c : Nat) :
    (walkMessages excl uid msgs c).messages_data =
      ((streamFrom msgs c).filter (eligibleMsg excl uid)).map _extract_message_data := by
  have h := foldl_walkStep_append excl uid (streamFrom msgs c) [] []
  simp only [walkMessages, walkList, h, List.length_nil, List.nil_append]
  exact walkFrom_fst excl uid 0 (streamFrom msgs c)

theorem walkMessages_saves (excl : Bool) (uid : Nat) (msgs : List Msg) (c : Nat) :
    (walkMessages excl uid msgs c).saves =
      savesSpec 0 (((streamFrom msgs c).filter (eligibleMsg excl uid)).map Msg.id) := by
  have h := foldl_walkStep_append excl uid (streamFrom msgs c) [] []
  simp only [walkMessages, walkList, h, List.length_nil, List.nil_append]
  exact walkFrom_snd excl uid 0 (streamFrom msgs c)

theorem fetch_messages_data_eq (excl : Bool) (uid : Nat) (msgs : List Msg)
    (c : Nat) (events : List FloodWaitEvent) :
    (fetch_messages excl uid msgs c events).messages_data =
      (walkMessages excl uid msgs c).messages_data := by
  induction events with
  | nil => rfl
  | cons e rest ih => simp [fetch_messages, ih]

theorem fetch_floodSleeps_eq (excl : Bool) (uid : Nat) (msgs : List Msg)
    (c : Nat) (events : List FloodWaitEvent) :
    (fetch_messages excl uid msgs c events).floodSleeps =
      events.map FloodWaitEvent.seconds := by
  induction events with
  | nil => rfl
  | cons e rest ih => simp [fetch_messages, ih]

theorem savesSpec_sublist (k : Nat) (l : List Nat) :
    List.Sublist (savesSpec k l) l := by
  induction l generalizing k with
  | nil => simp [savesSpec]
  | cons i rest ih =>
    by_cases h : (k + 1) % 100 = 0
    · simpa [savesSpec, h] using List.Sublist.cons₂ i (ih (k+1))
    · simpa [savesSpec, h] using List.Sublist.cons i (ih (k+1))

theorem eligible_ids_pairwise (excl : Bool) (uid : Nat) (msgs : List Msg) (c : Nat)
    (h : List.Pairwise (fun a b : Msg => a.id < b.id) msgs) :
    List.Pairwise (fun a b => a < b)
      (((streamFrom msgs c).filter (eligibleMsg excl uid)).map Msg.id) := by
  have hsub : List.Sublist ((streamFrom msgs c).filter (eligibleMsg excl uid)) msgs :=
    (List.filter_sublist _).trans (List.filter_sublist _)
  exact List.pairwise_map.mpr (List.Pairwise.sublist hsub h)

theorem record_message_id_extract (m : Msg) :
    (_extract_message_data m).message_id = m.id := rfl

theorem records_map_id (excl : Bool) (uid : Nat) (msgs : List Msg) (c : Nat)
    (events : List FloodWaitEvent) :
    (fetch_messages excl uid msgs c events).messages_data.map Record.message_id =
      ((streamFrom msgs c).filter (eligibleMsg excl uid)).map Msg.id := by
  rw [fetch_messages_data_eq, walkMessages_messages_data, List.map_map]
  rfl

theorem walkList_saves_eq (excl : Bool) (uid : Nat) (items : List Msg) :
    (walkList excl uid items).saves =
      savesSpec 0 ((items.filter (eligibleMsg excl uid)).map Msg.id) := by
  have h := foldl_walkStep_append excl uid items [] []
  simp only [walkList, h, List.length_nil, List.nil_append]
  exact walkFrom_snd excl uid 0 items

theorem walkList_saves_pairwise (excl : Bool) (uid : Nat)
    (items msgs : List Msg) (hsub : List.Sublist items msgs)
    (h : List.Pairwise (fun a b : Msg => a.id < b.id) msgs) :
    List.Pairwise (fun a b : Nat => a < b) (walkList excl uid items).saves := by
  rw [walkList_saves_eq]
  have hidsub : List.Sublist ((items.filter (eligibleMsg excl uid)).map Msg.id)
      (msgs.map Msg.id) :=
    ((List.filter_sublist _).trans hsub).map Msg.id
  have hp : List.Pairwise (fun a b : Nat => a < b) (msgs.map Msg.id) :=
    List.pairwise_map.mpr h
  exact List.Pairwise.sublist ((savesSpec_sublist 0 _).trans hidsub) hp

/-- C1 (counterexample): a message from author 5 with a non-empty body,
walked with exclusion id 999 and a privilege assignment under which
nobody is privileged, still produces a Record, although its author is
neither privileged nor exempted: fetch_messages performs no privilege
check. -/
theorem fetch_privilege_filter_cex :
    (fetch_messages true 999 [helloMsg] 0 []).messages_data =
      [_extract_message_data helloMsg] ∧
    recordAuthorQualified (fun _ => false) true 999 (_extract_message_data helloMsg) = false := by
  exact ⟨by decide, by decide⟩

/-- C1 (amended): the walk produces a Record for exactly the stream
messages above the checkpoint that are not caught by the self-post
exclusion and carry a non-empty body or media; the author's privilege is
never consulted (is_admin is not called by fetch_messages), so
non-privileged, non-exempted authors' messages do produce Records. -/
theorem fetch_records_exactly_eligible (excl : Bool) (uid : Nat)
    (msgs : List Msg) (c : Nat) (events : List FloodWaitEvent) :
    (fetch_messages excl uid msgs c events).messages_data =
      ((streamFrom msgs c).filter (eligibleMsg excl uid)).map _extract_message_data := by
  rw [fetch_messages_data_eq, walkMessages_messages_data]

/-- C2: for every checkpoint value c returned by the progress load at
the start of a run, every Record returned by fetch_messages has a
message identifier strictly above c, and a stream whose messages all
have identifier at most c yields no Records. -/
theorem fetch_resume_correctness (excl : Bool) (uid : Nat) (msgs : List Msg)
    (store : ProgressStore) (c : Nat) (events : List FloodWaitEvent)
    (h : _load_progress store = Except.ok c) :
    ((fetch_messages excl uid msgs c events).messages_data.all
        (fun r => decide (c < r.message_id))) = true ∧
    (msgs.all (fun m => decide (m.id ≤ c)) = true →
      (fetch_messages excl uid msgs c events).messages_data = []) := by
  constructor
  · rw [fetch_messages_data_eq, walkMessages_messages_data, List.all_eq_true]
    intro r hr
    rw [List.mem_map] at hr
    obtain ⟨m, hm, he⟩ := hr
    have h1 := (List.mem_filter.mp (List.mem_filter.mp hm).1).2
    subst he
    simpa [record_message_id_extract] using h1
  · intro hall
    rw [fetch_messages_data_eq, walkMessages_messages_data]
    have hnil : streamFrom msgs c = [] := by
      rw [streamFrom, List.filter_eq_nil_iff]
      intro m hm
      have := (List.all_eq_true.mp hall) m hm
      simpa using this
    rw [hnil]
    rfl

/-- C2 witness: with the checkpoint store holding 3, the loaded cursor
is 3 and the two-message stream with ids 1 and 2 (all at most 3)
produces no Records. -/
theorem fetch_resume_correctness_witness :
    ((fetch_messages true 999 stream2 3 []).messages_data.all
        (fun r => decide (3 < r.message_id))) = true ∧
    (stream2.all (fun m => decide (m.id ≤ 3)) = true →
      (fetch_messages true 999 stream2 3 []).messages_data = []) :=
  fetch_resume_correctness true 999 stream2 (ProgressStore.valid (some 3)) 3 [] rfl

/-- C3: for a stream with strictly increasing message ids, every
FloodWait event makes the pipeline sleep exactly the demanded seconds,
the interrupted accumulator is discarded and the walk restarts from the
run's checkpoint, and the returned value contains every eligible Record
exactly once (no duplicates), independently of the throttling events. -/
theorem fetch_throttle_retry (excl : Bool) (uid : Nat) (msgs : List Msg)
    (c : Nat) (events : List FloodWaitEvent)
    (h : List.Pairwise (fun a b : Msg => a.id < b.id) msgs) :
    (fetch_messages excl uid msgs c events).floodSleeps =
      events.map FloodWaitEvent.seconds ∧
    (fetch_messages excl uid msgs c events).messages_data =
      ((streamFrom msgs c).filter (eligibleMsg excl uid)).map _extract_message_data ∧
    (fetch_messages excl uid msgs c events).messages_data.Nodup := by
  refine ⟨fetch_floodSleeps_eq excl uid msgs c events, ?_, ?_⟩
  · rw [fetch_messages_data_eq, walkMessages_messages_data]
  · have hids := eligible_ids_pairwise excl uid msgs c h
    have hmap := records_map_id excl uid msgs c events
    have hpw : List.Pairwise (fun a b : Nat => a < b)
        ((fetch_messages excl uid msgs c events).messages_data.map Record.message_id) := by
      rw [hmap]; exact hids
    have hnd : ((fetch_messages excl uid msgs c events).messages_data.map
        Record.message_id).Nodup :=
      hpw.imp (fun hab => Nat.ne_of_lt hab)
    exact List.Nodup.of_map Record.message_id hnd

/-- C3 witness: a three-message stream with one FloodWait demanding 7
seconds after two items: one 7-second sleep, and the returned value is
all three eligible Records with no duplicates. -/
theorem fetch_throttle_retry_witness :
    (fetch_messages true 999 stream3 0
        [{ afterItems := 2, seconds := 7 }]).floodSleeps =
      ([{ afterItems := 2, seconds := 7 }] : List FloodWaitEvent).map
        FloodWaitEvent.seconds ∧
    (fetch_messages true 999 stream3 0
        [{ afterItems := 2, seconds := 7 }]).messages_data =
      ((streamFrom stream3 0).filter (eligibleMsg true 999)).map
        _extract_message_data ∧
    (fetch_messages true 999 stream3 0
        [{ afterItems := 2, seconds := 7 }]).messages_data.Nodup :=
  fetch_throttle_retry true 999 stream3 0 [{ afterItems := 2, seconds := 7 }] (by decide)

set_option maxRecDepth 100000 in
/-- C4 (counterexample): with 100 eligible messages and one FloodWait
raised after the first attempt consumed all 100 items, the checkpoint
for the 100th appended Record is saved once by the interrupted attempt
and again by the restarted walk: the run's save trace is [100, 100],
which is not strictly increasing. -/
theorem fetch_save_trace_repeats_cex :
    throttledRun.saves = [100, 100] ∧
    ¬ List.Pairwise (fun a b : Nat => a < b) throttledRun.saves := by
  have h : throttledRun.saves = [100, 100] := by decide
  refine ⟨h, ?_⟩
  rw [h]
  decide

/-- C4 (amended): for a stream with strictly increasing ids, the save
trace of each single walk attempt is strictly increasing; in particular
a run with no throttling events passes a strictly increasing sequence of
values to the store. Across throttling-triggered restarts the trace may
repeat values, because the restarted walk re-saves checkpoints for the
batches it re-produces. -/
theorem fetch_save_trace_strictIncr_per_attempt (excl : Bool) (uid : Nat)
    (msgs : List Msg) (c : Nat)
    (h : List.Pairwise (fun a b : Msg => a.id < b.id) msgs) :
    List.Pairwise (fun a b : Nat => a < b)
      (fetch_messages excl uid msgs c []).saves ∧
    (∀ n : Nat, List.Pairwise (fun a b : Nat => a < b)
      (walkList excl uid ((streamFrom msgs c).take n)).saves) := by
  constructor
  · exact walkList_saves_pairwise excl uid (streamFrom msgs c) msgs
      (List.filter_sublist msgs) h
  · intro n
    exact walkList_saves_pairwise excl uid ((streamFrom msgs c).take n) msgs
      ((List.take_sublist n (streamFrom msgs c)).trans (List.filter_sublist msgs)) h

/-- C4 witness: on the three-message stream with ids 1, 2, 3 the
no-throttle save trace and every interrupted attempt's save trace are
strictly increasing. -/
theorem fetch_save_trace_strictIncr_witness :
    List.Pairwise (fun a b : Nat => a < b)
      (fetch_messages true 999 stream3 0 []).saves ∧
    (∀ n : Nat, List.Pairwise (fun a b : Nat => a < b)
      (walkList true 999 ((streamFrom stream3 0).take n)).saves) :=
  fetch_save_trace_strictIncr_per_attempt true 999 stream3 0 (by decide)

/-- C5 (counterexample): on a corrupt progress store, _load_progress
propagates the json.load exception rather than returning 0 with a
warning: the load is not infallible. -/
theorem load_progress_corrupt_fails_cex :
    _load_progress ProgressStore.corrupt = Except.error "json.load raised" ∧
    (_load_progress ProgressStore.corrupt).isOk = false :=
  ⟨rfl, rfl⟩

/-- C5 (amended): _load_progress returns the stored last_message_id when
the store parses (0 when the field is absent) and 0 when the store is
missing, but a corrupt store raises instead of being treated as no
progress. -/
theorem load_progress_amended :
    _load_progress ProgressStore.missing = Except.ok 0 ∧
    (∀ n : Nat, _load_progress (ProgressStore.valid (some n)) = Except.ok n) ∧
    _load_progress (ProgressStore.valid none) = Except.ok 0 ∧
    _load_progress ProgressStore.corrupt = Except.error "json.load raised" :=
  ⟨rfl, fun _ => rfl, rfl, rfl⟩

/-- C6: _get_media_type follows the fixed priority table, including the
MIME inspection for documents and the concrete cases video/mp4,
audio/ogg and application/pdf. -/
theorem media_type_priority_table :
    _get_media_type none = none ∧
    _get_media_type (some MessageMedia.photo) = some "photo" ∧
    (∀ mime : String,
      _get_media_type (some (MessageMedia.document (some { mime_type := mime }))) =
        if strStartsWith mime "video/" then some "video"
        else if strStartsWith mime "audio/" then some "audio"
        else some "document") ∧
    _get_media_type (some (MessageMedia.document (some { mime_type := "video/mp4" }))) =
      some "video" ∧
    _get_media_type (some (MessageMedia.document (some { mime_type := "audio/ogg" }))) =
      some "audio" ∧
    _get_media_type (some (MessageMedia.document (some { mime_type := "application/pdf" }))) =
      some "document" ∧
    _get_media_type (some MessageMedia.webPage) = some "webpage" ∧
    _get_media_type (some MessageMedia.geo) = some "location" ∧
    _get_media_type (some MessageMedia.contact) = some "contact" ∧
    _get_media_type (some MessageMedia.poll) = some "poll" ∧
    _get_media_type (some MessageMedia.unknownMedia) = some "other" :=
  ⟨rfl, rfl, fun _ => rfl, by decide, by decide, by decide, rfl, rfl, rfl, rfl, rfl⟩

/-- C7 (counterexample): a resolved configuration whose batch_size is 2
does not change the checkpoint cadence: a no-throttle run that appends
two Records performs no save at all, because the interval in
fetch_messages is the hardcoded constant 100, not the configured value. -/
theorem fetch_checkpoint_interval_cex :
    (_load_config emptyEnv (some yamlBatch2)).map Config.batch_size = Except.ok 2 ∧
    (fetch_messages true 999 stream2 0 []).messages_data.length = 2 ∧
    (fetch_messages true 999 stream2 0 []).saves = [] := by
  refine ⟨rfl, by decide, by decide⟩

/-- C7 (amended): the pipeline persists the checkpoint once per 100
appended Records — the constant 100 is hardcoded in fetch_messages and
not taken from the resolved configuration (whose batch_size key the
pipeline never reads) — and each saved value is the identifier of the
message whose Record completed its batch of 100. -/
theorem fetch_checkpoint_interval_amended (excl : Bool) (uid : Nat)
    (msgs : List Msg) (c : Nat) :
    (fetch_messages excl uid msgs c []).saves =
      savesSpec 0 ((fetch_messages excl uid msgs c []).messages_data.map
        Record.message_id) := by
  rw [records_map_id excl uid msgs c []]
  exact walkMessages_saves excl uid msgs c

/-- C8: with the self-post exclusion enabled, no Record returned by
fetch_messages carries the excluded author id, whatever the stream, the
messages' bodies and media, and the throttling events. -/
theorem fetch_exclusion_precedence (uid : Nat) (msgs : List Msg) (c : Nat)
    (events : List FloodWaitEvent) :
    ((fetch_messages true uid msgs c events).messages_data.all
      (fun r => !(r.sender_id == some uid))) = true := by
  rw [fetch_messages_data_eq, walkMessages_messages_data, List.all_eq_true]
  intro r hr
  rw [List.mem_map] at hr
  obtain ⟨m, hm, he⟩ := hr
  have h2 := (List.mem_filter.mp hm).2
  subst he
  simp only [eligibleMsg, excludedMsg, Bool.true_and, Bool.and_eq_true,
    Bool.not_eq_true'] at h2
  simpa [_extract_message_data] using h2.1

/-- C9: for every author id, when the remote privilege query raises, the
privilege classifier returns false and emits a warning instead of
propagating the error: a privilege-lookup failure never aborts
ingestion. -/
theorem is_admin_failure_nonfatal (user_id : Nat) (e : String) :
    (is_admin user_id (Except.error e)).result = false ∧
    (is_admin user_id (Except.error e)).warnings ≠ [] :=
  ⟨rfl, by simp [is_admin]⟩

/-- C10: save_to_csv called with an empty record list returns before
touching the output target, leaving any existing content unchanged; a
call with a non-empty record list writes the header row followed by one
row per Record. -/
theorem save_to_csv_empty_frame :
    (∀ fileBefore : Option String, save_to_csv [] fileBefore = fileBefore) ∧
    (∀ (r : Record) (rs : List Record) (fileBefore : Option String),
      save_to_csv (r :: rs) fileBefore =
        some (csvLine fieldnames ++
          String.join ((r :: rs).map (fun x => csvLine (recordRow x))))) :=
  ⟨fun _ => rfl, fun _ _ _ => rfl⟩
